import Mathlib

/-!
Shallow embedding of the signalk-speedtest plugin (src/index.js).

The plugin keeps a rolling window of position samples, judges the vessel
stationary when the window is full and its path length is small, and decides
each tick whether to run a speed test.  JavaScript numbers are modelled as
real numbers; the module-level mutable variables (positions,
lastSpeedTestDate, lastSpeedTestPosition) become an explicit state record.
A tick whose position lookup returns null is modelled with Except: the
source dereferences the null value, which throws a TypeError.
-/

open Real

/-- A position sample, src/index.js line 154: {latitude, longitude}. -/
structure Pos where
  latitude : ℝ
  longitude : ℝ

/-- src/index.js line 20. -/
def KEEP_N_POSITIONS : ℕ := 30

/-- src/index.js line 21 (nautical miles). -/
noncomputable def MAX_DISTANCE : ℝ := 0.1

/-- The spherical-law-of-cosines argument built at src/index.js line 47:
sin(radlat1)·sin(radlat2) + cos(radlat1)·cos(radlat2)·cos(radtheta). -/
noncomputable def cosArg (lat1 lon1 lat2 lon2 : ℝ) : ℝ :=
  Real.sin (Real.pi * lat1 / 180) * Real.sin (Real.pi * lat2 / 180) +
    Real.cos (Real.pi * lat1 / 180) * Real.cos (Real.pi * lat2 / 180) *
      Real.cos (Real.pi * (lon1 - lon2) / 180)

/-- The clamp at src/index.js lines 48-50: if (dist > 1) dist = 1. -/
noncomputable def clampedCosArg (lat1 lon1 lat2 lon2 : ℝ) : ℝ :=
  if cosArg lat1 lon1 lat2 lon2 > 1 then 1 else cosArg lat1 lon1 lat2 lon2

/-- calculateDistance, src/index.js lines 38-57.  Identical points return 0;
otherwise acos of the clamped argument, converted from angular degrees to
nautical miles. -/
noncomputable def calculateDistance (lat1 lon1 lat2 lon2 : ℝ) : ℝ :=
  if lat1 = lat2 ∧ lon1 = lon2 then 0
  else Real.arccos (clampedCosArg lat1 lon1 lat2 lon2) * 180 / Real.pi * 60 * 1.1515 * 0.8684

/-- calculateDistanceOfPath, src/index.js lines 59-69: 0 for fewer than two
points, else the loop accumulates calculateDistance(path[i], path[i-1]) for
i = 1 .. length-1. -/
noncomputable def calculateDistanceOfPath : List Pos → ℝ
  | [] => 0
  | [_] => 0
  | p0 :: p1 :: rest =>
      calculateDistance p1.latitude p1.longitude p0.latitude p0.longitude +
        calculateDistanceOfPath (p1 :: rest)

/-- One record step, src/index.js lines 154-155:
positions.unshift(sample); positions = positions.slice(0, KEEP_N_POSITIONS). -/
def record (positions : List Pos) (sample : Pos) : List Pos :=
  (sample :: positions).take KEEP_N_POSITIONS

/-- The stationarity test at src/index.js line 158:
positions.length >= KEEP_N_POSITIONS && distance <= MAX_DISTANCE. -/
noncomputable def isStationaryWindow (positions : List Pos) : Prop :=
  KEEP_N_POSITIONS ≤ positions.length ∧ calculateDistanceOfPath positions ≤ MAX_DISTANCE

/-- The module-level mutable variables of src/index.js lines 25-28 that the
tick and the submission callback read and write.  lastSpeedTestDate and
lastSpeedTestPosition start undefined (none); timestamps are milliseconds. -/
structure PluginState where
  positions : List Pos
  lastSpeedTestDate : Option ℝ
  lastSpeedTestPosition : Option Pos

/-- Configuration captured at plugin.start, src/index.js lines 144-148:
interval is the clamped minimum interval in hours. -/
structure PluginConfig where
  interval : ℝ
  testOnMove : Bool

/-- getKeyValue, src/index.js lines 122-135: data is the (timestamp, value)
pair from app.getSelfPath (none when the path is unset); the value is
returned only when its age in seconds is at most maxAge. -/
noncomputable def getKeyValue (data : Option (ℝ × Pos)) (now maxAge : ℝ) : Option Pos :=
  match data with
  | none => none
  | some (ts, value) => if (now - ts) / 1000 ≤ maxAge then some value else none

/-- distanceFromLastSpeedTest, src/index.js lines 159-165: 0 when no
lastSpeedTestPosition exists, else the distance from the current position. -/
noncomputable def distanceFromLastSpeedTest (position : Pos) (lastPos : Option Pos) : ℝ :=
  match lastPos with
  | some lp => calculateDistance position.latitude position.longitude lp.latitude lp.longitude
  | none => 0

/-- The time disjuncts of the condition at src/index.js lines 170-173:
(!lastSpeedTestDate) || (timeSinceLastSpeedTest > interval·60·60·1000).
When lastSpeedTestDate is unset the first disjunct holds and the elapsed
time (assigned only at line 168) is never read. -/
def timeTriggerCond (cfg : PluginConfig) (now : ℝ) (lastDate : Option ℝ) : Prop :=
  match lastDate with
  | none => True
  | some d => now - d > cfg.interval * 60 * 60 * 1000

/-- The full trigger condition at src/index.js lines 170-173, evaluated only
inside the stationary branch:
((testOnMove) && (distanceFromLastSpeedTest >= 1)) || (!lastSpeedTestDate)
|| (timeSinceLastSpeedTest > interval * 60 * 60 * 1000). -/
noncomputable def speedTestCondition (cfg : PluginConfig) (now : ℝ) (position : Pos)
    (s : PluginState) : Prop :=
  (cfg.testOnMove = true ∧ 1 ≤ distanceFromLastSpeedTest position s.lastSpeedTestPosition) ∨
    timeTriggerCond cfg now s.lastSpeedTestDate

open Classical in
/-- The body of the setInterval callback for a non-null position,
src/index.js lines 153-185.  Returns the new module state and whether
doSpeedTest was invoked.  On trigger the window is reset (line 175); on a
no-trigger decision, and in the non-stationary case, the window keeps the
value assigned at line 155. -/
noncomputable def mainProcessBody (cfg : PluginConfig) (now : ℝ) (position : Pos)
    (s : PluginState) : PluginState × Bool :=
  if isStationaryWindow (record s.positions position) then
    if speedTestCondition cfg now position s then
      ({ s with positions := [] }, true)
    else
      ({ s with positions := record s.positions position }, false)
  else
    ({ s with positions := record s.positions position }, false)

/-- The whole setInterval callback, src/index.js lines 151-186.  When
getKeyValue returned null the callback dereferences the null position at
line 153 (position.latitude inside the debug template literal) and throws a
TypeError before any state is touched; the thrown exception is the error
case here. -/
noncomputable def mainProcessTick (cfg : PluginConfig) (now : ℝ) (fix : Option Pos)
    (s : PluginState) : Except Unit (PluginState × Bool) :=
  match fix with
  | none => Except.error ()
  | some position => Except.ok (mainProcessBody cfg now position s)

/-- The response callback of submitDataToServer, src/index.js lines 78-89.
error models the truthiness of the request error argument; on
!error && statusCode == 200 the last-test date is set to Date.now() and the
last-test position is overwritten only when fresh position data (fix, the
result of getKeyValue at line 81) is available; otherwise nothing changes. -/
def submitDataToServerCallback (error : Bool) (statusCode : ℤ) (now : ℝ)
    (fix : Option Pos) (s : PluginState) : PluginState :=
  if error = false ∧ statusCode = 200 then
    { s with
      lastSpeedTestDate := some now
      lastSpeedTestPosition :=
        match fix with
        | some p => some p
        | none => s.lastSpeedTestPosition }
  else s

/-! ### Helper lemmas -/

/-- Identical coordinates take the early-return branch of calculateDistance. -/
theorem calculateDistance_self (lat lon : ℝ) : calculateDistance lat lon lat lon = 0 := by
  unfold calculateDistance
  rw [if_pos ⟨rfl, rfl⟩]

/-- A constant path has length 0. -/
theorem calculateDistanceOfPath_replicate (p : Pos) :
    ∀ n : ℕ, calculateDistanceOfPath (List.replicate n p) = 0 := by
  intro n
  induction n with
  | zero => simp [calculateDistanceOfPath]
  | succ m ih =>
    cases m with
    | zero => simp [calculateDistanceOfPath]
    | succ k =>
      have h1 : List.replicate (k + 1 + 1) p = p :: p :: List.replicate k p := by
        simp [List.replicate_succ]
      have h2 : List.replicate (k + 1) p = p :: List.replicate k p := by
        simp [List.replicate_succ]
      rw [h1]
      show calculateDistance p.latitude p.longitude p.latitude p.longitude +
          calculateDistanceOfPath (p :: List.replicate k p) = 0
      rw [calculateDistance_self, ← h2, ih]
      ring

/-- The loop of calculateDistanceOfPath as a sum over consecutive pairs. -/
theorem calculateDistanceOfPath_eq_pairSum (path : List Pos) :
    calculateDistanceOfPath path =
      ((path.zip path.tail).map
        (fun q => calculateDistance q.2.latitude q.2.longitude q.1.latitude q.1.longitude)).sum := by
  induction path with
  | nil => simp [calculateDistanceOfPath]
  | cons p0 t ih =>
    cases t with
    | nil => simp [calculateDistanceOfPath]
    | cons p1 rest =>
      show calculateDistance p1.latitude p1.longitude p0.latitude p0.longitude +
          calculateDistanceOfPath (p1 :: rest) = _
      rw [ih]
      simp

/-- The trigger condition as the three disjuncts of the specification. -/
theorem speedTestCondition_iff (cfg : PluginConfig) (now : ℝ) (position : Pos)
    (s : PluginState) :
    speedTestCondition cfg now position s ↔
      s.lastSpeedTestDate = none ∨
        (∃ d, s.lastSpeedTestDate = some d ∧ now - d > cfg.interval * 60 * 60 * 1000) ∨
        (cfg.testOnMove = true ∧
          1 ≤ distanceFromLastSpeedTest position s.lastSpeedTestPosition) := by
  unfold speedTestCondition timeTriggerCond
  cases hd : s.lastSpeedTestDate with
  | none => simp
  | some d => simp [hd]; tauto

/-- Folding record over any batch of samples keeps the window bounded. -/
theorem foldl_record_length_le (samples : List Pos) :
    ∀ w : List Pos, w.length ≤ KEEP_N_POSITIONS →
      (samples.foldl record w).length ≤ KEEP_N_POSITIONS := by
  induction samples with
  | nil => intro w hw; simpa using hw
  | cons p t ih =>
    intro w _
    have hr : (record w p).length ≤ KEEP_N_POSITIONS := by
      simp [record, List.length_take]
    simpa using ih (record w p) hr

/-! ### Claim theorems -/

/-- Claim C7: calculateDistance is nonnegative for every pair of points,
returns exactly 0 for a point compared with itself, and its arccosine
argument is clamped to at most 1. -/
theorem calculateDistance_nonneg_self_zero_clamped :
    (∀ lat1 lon1 lat2 lon2 : ℝ, 0 ≤ calculateDistance lat1 lon1 lat2 lon2) ∧
    (∀ lat lon : ℝ, calculateDistance lat lon lat lon = 0) ∧
    (∀ lat1 lon1 lat2 lon2 : ℝ, clampedCosArg lat1 lon1 lat2 lon2 ≤ 1) := by
  refine ⟨?_, calculateDistance_self, ?_⟩
  · intro lat1 lon1 lat2 lon2
    unfold calculateDistance
    split
    · exact le_refl 0
    · have h1 : 0 ≤ Real.arccos (clampedCosArg lat1 lon1 lat2 lon2) :=
        Real.arccos_nonneg _
      exact mul_nonneg
        (mul_nonneg
          (mul_nonneg
            (div_nonneg (mul_nonneg h1 (by norm_num)) Real.pi_pos.le)
            (by norm_num))
          (by norm_num))
        (by norm_num)
  · intro lat1 lon1 lat2 lon2
    unfold clampedCosArg
    split
    · exact le_refl 1
    · linarith [not_lt.mp (by assumption : ¬ cosArg lat1 lon1 lat2 lon2 > 1)]

/-- Claim C9: calculateDistance is symmetric in its two points. -/
theorem calculateDistance_symm (lat1 lon1 lat2 lon2 : ℝ) :
    calculateDistance lat1 lon1 lat2 lon2 = calculateDistance lat2 lon2 lat1 lon1 := by
  have hcos : cosArg lat1 lon1 lat2 lon2 = cosArg lat2 lon2 lat1 lon1 := by
    unfold cosArg
    have hth : Real.cos (Real.pi * (lon1 - lon2) / 180) =
        Real.cos (Real.pi * (lon2 - lon1) / 180) := by
      rw [show Real.pi * (lon1 - lon2) / 180 = -(Real.pi * (lon2 - lon1) / 180) by ring,
        Real.cos_neg]
    rw [hth]; ring
  have hcl : clampedCosArg lat1 lon1 lat2 lon2 = clampedCosArg lat2 lon2 lat1 lon1 := by
    unfold clampedCosArg
    rw [hcos]
  unfold calculateDistance
  by_cases h : lat1 = lat2 ∧ lon1 = lon2
  · rw [if_pos h, if_pos ⟨h.1.symm, h.2.symm⟩]
  · rw [if_neg h, if_neg (fun h2 => h ⟨h2.1.symm, h2.2.symm⟩), hcl]

/-- Claim C8: calculateDistanceOfPath returns 0 for fewer than two points and
otherwise sums calculateDistance over each consecutive pair in sequence
order. -/
theorem calculateDistanceOfPath_spec :
    calculateDistanceOfPath [] = 0 ∧
    (∀ p : Pos, calculateDistanceOfPath [p] = 0) ∧
    (∀ path : List Pos,
      calculateDistanceOfPath path =
        ((path.zip path.tail).map
          (fun q => calculateDistance q.2.latitude q.2.longitude q.1.latitude q.1.longitude)).sum) :=
  ⟨rfl, fun _ => rfl, calculateDistanceOfPath_eq_pairSum⟩

/-- Claim C3: on a tick with a position fix, a measurement is triggered iff
the updated window is judged stationary and (no prior test ran, or the
elapsed time exceeds the configured interval in hours, or testOnMove is on
and the distance from the last-test position is at least 1 nautical mile);
in particular a non-stationary tick never triggers. -/
theorem trigger_decision_iff (cfg : PluginConfig) (now : ℝ) (position : Pos)
    (s : PluginState) :
    (mainProcessBody cfg now position s).2 = true ↔
      isStationaryWindow (record s.positions position) ∧
        (s.lastSpeedTestDate = none ∨
          (∃ d, s.lastSpeedTestDate = some d ∧ now - d > cfg.interval * 60 * 60 * 1000) ∨
          (cfg.testOnMove = true ∧
            1 ≤ distanceFromLastSpeedTest position s.lastSpeedTestPosition)) := by
  unfold mainProcessBody
  by_cases hst : isStationaryWindow (record s.positions position)
  · rw [if_pos hst]
    by_cases htr : speedTestCondition cfg now position s
    · rw [if_pos htr]
      simpa using ⟨hst, (speedTestCondition_iff cfg now position s).mp htr⟩
    · rw [if_neg htr]
      simp only [Bool.false_eq_true, false_iff]
      rintro ⟨-, hdisj⟩
      exact htr ((speedTestCondition_iff cfg now position s).mpr hdisj)
  · rw [if_neg hst]
    simp only [Bool.false_eq_true, false_iff]
    rintro ⟨hst2, -⟩
    exact hst hst2

/-- Claim C4 (amended): the window is reset to empty at decision time exactly
when the decision is to trigger; on a no-trigger decision the window keeps
the freshly recorded 30-sample contents. -/
theorem window_reset_iff_triggered (cfg : PluginConfig) (now : ℝ) (position : Pos)
    (s : PluginState) :
    (mainProcessBody cfg now position s).1.positions =
      if (mainProcessBody cfg now position s).2 = true then []
      else record s.positions position := by
  unfold mainProcessBody
  by_cases hst : isStationaryWindow (record s.positions position)
  · rw [if_pos hst]
    by_cases htr : speedTestCondition cfg now position s
    · rw [if_pos htr]; simp
    · rw [if_neg htr]; simp
  · rw [if_neg hst]; simp

/-- Claim C4 counterexample: a stationary tick on which the trigger decision
is negative (recent test at the same spot) leaves the window holding its 30
samples, so the window is not reset after every trigger decision. -/
theorem window_not_reset_on_no_trigger_cex :
    isStationaryWindow (record (List.replicate 29 (Pos.mk 0 0)) (Pos.mk 0 0)) ∧
    (mainProcessBody (PluginConfig.mk 8 true) 0 (Pos.mk 0 0)
        (PluginState.mk (List.replicate 29 (Pos.mk 0 0)) (some 0) (some (Pos.mk 0 0)))).2
      = false ∧
    (mainProcessBody (PluginConfig.mk 8 true) 0 (Pos.mk 0 0)
        (PluginState.mk (List.replicate 29 (Pos.mk 0 0)) (some 0) (some (Pos.mk 0 0)))).1.positions
      = List.replicate 30 (Pos.mk 0 0) := by
  have hrec : record (List.replicate 29 (Pos.mk 0 0)) (Pos.mk 0 0) =
      List.replicate 30 (Pos.mk 0 0) := by
    unfold record KEEP_N_POSITIONS
    rw [show (Pos.mk 0 0 :: List.replicate 29 (Pos.mk 0 0)) =
        List.replicate 30 (Pos.mk 0 0) from (List.replicate_succ _ _).symm]
    exact List.take_of_length_le (by simp)
  have hst : isStationaryWindow (record (List.replicate 29 (Pos.mk 0 0)) (Pos.mk 0 0)) := by
    rw [hrec]
    constructor
    · simp [KEEP_N_POSITIONS]
    · rw [calculateDistanceOfPath_replicate]
      unfold MAX_DISTANCE
      norm_num
  have hmove : distanceFromLastSpeedTest (Pos.mk 0 0) (some (Pos.mk 0 0)) = 0 := by
    unfold distanceFromLastSpeedTest
    exact calculateDistance_self 0 0
  have htr : ¬ speedTestCondition (PluginConfig.mk 8 true) 0 (Pos.mk 0 0)
      (PluginState.mk (List.replicate 29 (Pos.mk 0 0)) (some 0) (some (Pos.mk 0 0))) := by
    unfold speedTestCondition timeTriggerCond
    simp only [hmove]
    push_neg
    refine ⟨fun _ => by norm_num, ?_⟩
    norm_num
  refine ⟨hst, ?_, ?_⟩ <;>
    (unfold mainProcessBody; rw [if_pos hst, if_neg htr, hrec])

/-- Claim C5: the stationarity verdict holds iff the window has exactly 30
samples and path length at most 0.1 nautical miles; a window below capacity
is never stationary. -/
theorem isStationary_characterization (w : List Pos) (h : w.length ≤ KEEP_N_POSITIONS) :
    (isStationaryWindow w ↔
      w.length = KEEP_N_POSITIONS ∧ calculateDistanceOfPath w ≤ MAX_DISTANCE) ∧
    (w.length < KEEP_N_POSITIONS → ¬ isStationaryWindow w) := by
  unfold isStationaryWindow
  constructor
  · constructor
    · rintro ⟨h1, h2⟩
      exact ⟨le_antisymm h h1, h2⟩
    · rintro ⟨h1, h2⟩
      exact ⟨h1.ge, h2⟩
  · rintro hlt ⟨h1, -⟩
    omega

/-- Witness for C5 at the concrete full window of 30 copies of the origin. -/
theorem isStationary_characterization_witness :
    (List.replicate 30 (Pos.mk 0 0)).length ≤ KEEP_N_POSITIONS ∧
    ((isStationaryWindow (List.replicate 30 (Pos.mk 0 0)) ↔
        (List.replicate 30 (Pos.mk 0 0)).length = KEEP_N_POSITIONS ∧
          calculateDistanceOfPath (List.replicate 30 (Pos.mk 0 0)) ≤ MAX_DISTANCE) ∧
      ((List.replicate 30 (Pos.mk 0 0)).length < KEEP_N_POSITIONS →
        ¬ isStationaryWindow (List.replicate 30 (Pos.mk 0 0)))) :=
  ⟨by simp [KEEP_N_POSITIONS],
    isStationary_characterization (List.replicate 30 (Pos.mk 0 0)) (by simp [KEEP_N_POSITIONS])⟩

/-- Claim C6: record inserts the new sample at the front, keeps the retained
samples in newest-first order, evicts beyond capacity from the back, and any
sequence of record operations starting from the empty window keeps the
length at most 30. -/
theorem record_window_invariant :
    (∀ (w : List Pos) (p : Pos), record w p = p :: w.take 29) ∧
    (∀ (w : List Pos) (p : Pos), (record w p).length ≤ KEEP_N_POSITIONS) ∧
    (∀ samples : List Pos, (samples.foldl record []).length ≤ KEEP_N_POSITIONS) := by
  refine ⟨?_, ?_, ?_⟩
  · intro w p
    rfl
  · intro w p
    simp [record, List.length_take]
  · intro samples
    exact foldl_record_length_le samples [] (by simp)

/-- Claim C1: when getKeyValue returns null (no fix, or the last fix older
than 60 seconds), the tick body throws a TypeError at the null dereference
of position.latitude (src/index.js line 153) before touching any state: the
callback yields the error outcome and never a normal (skipped or otherwise)
result, so no sample is recorded and no decision is made, but the tick is
aborted by an uncaught exception rather than skipped. -/
theorem tick_null_position_throws (cfg : PluginConfig) (now : ℝ) (s : PluginState) :
    mainProcessTick cfg now none s = Except.error () ∧
    ∀ (s2 : PluginState) (b : Bool),
      mainProcessTick cfg now none s ≠ Except.ok (s2, b) := by
  refine ⟨rfl, ?_⟩
  intro s2 b h
  exact Except.noConfusion h

/-- Claim C2 counterexample: when the submission request reports an error,
the last-test date (and hence the TestRecord) is not updated, so a
measurement whose submission fails does not count as completed. -/
theorem testRecord_not_updated_on_failed_submission_cex :
    (submitDataToServerCallback true 200 1000 (some (Pos.mk 1 1))
        (PluginState.mk [] none none)).lastSpeedTestDate = none := by
  simp [submitDataToServerCallback]

/-- Claim C2 (amended): the submission callback updates the last-test date
only when the request succeeded with status 200; on any failure the whole
state is left unchanged. -/
theorem testRecord_updated_only_on_submission_success :
    (∀ (now : ℝ) (fix : Option Pos) (s : PluginState),
      (submitDataToServerCallback false 200 now fix s).lastSpeedTestDate = some now) ∧
    (∀ (error : Bool) (statusCode : ℤ) (now : ℝ) (fix : Option Pos) (s : PluginState),
      error = true ∨ statusCode ≠ 200 →
        submitDataToServerCallback error statusCode now fix s = s) := by
  constructor
  · intro now fix s
    unfold submitDataToServerCallback
    rw [if_pos ⟨rfl, rfl⟩]
  · intro error statusCode now fix s hfail
    unfold submitDataToServerCallback
    rw [if_neg]
    rintro ⟨h1, h2⟩
    rcases hfail with h | h
    · rw [h1] at h
      exact Bool.noConfusion h
    · exact h h2

/-- Witness for the amended C2 at concrete success and failure responses. -/
theorem testRecord_updated_only_on_submission_success_witness :
    (submitDataToServerCallback false 200 5 none
        (PluginState.mk [] none none)).lastSpeedTestDate = some 5 ∧
    submitDataToServerCallback true 404 5 none (PluginState.mk [] none none) =
      PluginState.mk [] none none :=
  ⟨testRecord_updated_only_on_submission_success.1 5 none (PluginState.mk [] none none),
    testRecord_updated_only_on_submission_success.2 true 404 5 none
      (PluginState.mk [] none none) (Or.inl rfl)⟩

/-- Claim C10: on a successful submission the last-test date is always
overwritten with the completion time, while the last-test position is
overwritten only when getKeyValue finds a fix at most 60 seconds old at that
moment; with no fresh fix the previous last-test position is kept, and the
window is untouched. -/
theorem lastTestPosition_update_requires_fresh_fix (now : ℝ) (data : Option (ℝ × Pos))
    (s : PluginState) :
    (submitDataToServerCallback false 200 now (getKeyValue data now 60) s).lastSpeedTestDate
        = some now ∧
    (submitDataToServerCallback false 200 now (getKeyValue data now 60) s).lastSpeedTestPosition
        = (match getKeyValue data now 60 with
            | some p => some p
            | none => s.lastSpeedTestPosition) ∧
    (submitDataToServerCallback false 200 now (getKeyValue data now 60) s).positions
        = s.positions := by
  unfold submitDataToServerCallback
  rw [if_pos ⟨rfl, rfl⟩]
  exact ⟨rfl, rfl, rfl⟩
